import Mathlib

/-!
Shallow embedding of the persistence core of the `vermion-common` repository
(`src/database.py` and `src/config_manager.py`).

Tables are modelled as lists of row records inside a `Db` state; timestamps
are integers and `CURRENT_TIMESTAMP` is an explicit `now : Int` argument.
Each public storage method of `DatabaseManager` is embedded as a pure state
transformer `Db → ... → Db × α` describing its committed effect, plus a
fault-wrapped runner mirroring the Python control flow
(`conn = self._get_connection()` outside the `try`, a `try/except` body that
maps any fault to a default result, rollback of uncommitted work on return).
-/

namespace Vermion

/-- A row of `user_sessions` (schema in `_create_tables_if_not_exists`). -/
structure SessionRow where
  session_id : String
  user_id : Int
  username : String
  discriminator : String
  avatar : Option String
  access_token : String
  refresh_token : Option String
  token_type : String
  expires_at : Int
  created_at : Int
  last_activity : Int
  deriving DecidableEq, Repr

/-- The projection of a session returned by `get_session`. -/
structure SessionView where
  user_id : Int
  username : String
  discriminator : String
  avatar : Option String
  access_token : String
  token_type : String
  expires_at : Int
  deriving DecidableEq, Repr

/-- A row of `user_guilds`. -/
structure UserGuildRow where
  user_id : Int
  guild_id : Int
  guild_name : String
  guild_icon : Option String
  owner : Bool
  permissions : Int
  synced_at : Int
  deriving DecidableEq, Repr

/-- A row of `bot_guilds`. -/
structure BotGuildRow where
  guild_id : Int
  guild_name : String
  member_count : Int
  synced_at : Int
  deriving DecidableEq, Repr

/-- A row of `audit_logs` (surrogate id omitted; the list position plays its role). -/
structure AuditRow where
  user_id : Int
  guild_id : Int
  action : String
  details : Option String
  ip_address : Option String
  created_at : Int
  deriving DecidableEq, Repr

/-- A row of `guild_messages`. -/
structure GuildMessageRow where
  guild_id : Int
  test_message : String
  updated_at : Int
  deriving DecidableEq, Repr

/-- A row of the `config_tokens` relation described in the spec
(`token PK, guild_id, created_at, expires_at, used, used_at`). -/
structure ConfigTokenRow where
  token : String
  guild_id : Int
  created_at : Int
  expires_at : Int
  used : Bool
  used_at : Option Int
  deriving DecidableEq, Repr

/-- The database state: one list of rows per relation. -/
structure Db where
  guild_messages : List GuildMessageRow
  user_sessions : List SessionRow
  user_guilds : List UserGuildRow
  bot_guilds : List BotGuildRow
  audit_logs : List AuditRow
  config_tokens : List ConfigTokenRow
  deriving DecidableEq, Repr

/-- The empty database state. -/
def Db.empty : Db := ⟨[], [], [], [], [], []⟩

/-- The `user_data` dict supplied by the OAuth collaborator
(`id`, `username`, optional `discriminator`, optional `avatar`). -/
structure UserData where
  id : Int
  username : String
  discriminator : Option String
  avatar : Option String
  deriving DecidableEq, Repr

/-- The `token_data` dict supplied by the OAuth collaborator. -/
structure TokenData where
  access_token : String
  refresh_token : Option String
  token_type : Option String
  expires_in : Option Int
  deriving DecidableEq, Repr

/-- One element of the `guilds_data` list supplied by the bot runtime. -/
structure GuildData where
  id : Int
  name : String
  icon : Option String
  owner : Option Bool
  permissions : Option Int
  member_count : Option Int
  deriving DecidableEq, Repr

/-- One record returned by `get_user_guilds`. -/
structure GuildView where
  guild_id : Int
  guild_name : String
  guild_icon : Option String
  owner : Bool
  permissions : Int
  bot_present : Bool
  deriving DecidableEq, Repr

/-- Faults of the storage layer: `connError` is raised by the pool when it
cannot produce a connection, `queryError` by statement execution. -/
inductive DbFault where
  | connError
  | queryError
  deriving DecidableEq, Repr

/-- The control-flow skeleton shared by every public method of
`DatabaseManager`: `conn = self._get_connection()` runs before the `try`
block, so an acquisition fault propagates; any fault inside the `try` body
is caught by the bare `except`, the uncommitted work is rolled back when the
connection is returned to the pool, and the method's default value is
returned instead. -/
def runOp (acqOk queryOk : Bool) (db : Db) (dflt : α) (core : Db × α) :
    Except DbFault (Db × α) :=
  if acqOk then
    if queryOk then Except.ok core else Except.ok (db, dflt)
  else
    Except.error DbFault.connError

/-! ## Schema bootstrap (`_create_tables_if_not_exists`, src/database.py:42-112) -/

/-- The names of the tables in the `CREATE TABLE IF NOT EXISTS` statements of
`_create_tables_if_not_exists`, in source order. -/
def createdTables : List String :=
  ["guild_messages", "user_sessions", "user_guilds", "bot_guilds", "audit_logs"]

/-- The names of the indexes in the `CREATE INDEX IF NOT EXISTS` statements of
`_create_tables_if_not_exists`, in source order. -/
def createdIndexes : List String :=
  ["idx_sessions_user", "idx_guilds_user", "idx_audit_guild"]

/-- The catalog of relations and indexes present in the store. -/
structure Schema where
  tables : List String
  indexes : List String
  deriving DecidableEq, Repr

/-- `CREATE ... IF NOT EXISTS name`: add `name` to the catalog only if absent. -/
def createIfAbsent (cat : List String) (name : String) : List String :=
  if name ∈ cat then cat else cat ++ [name]

/-- `_create_tables_if_not_exists`: run every `CREATE TABLE IF NOT EXISTS` and
`CREATE INDEX IF NOT EXISTS` statement of the bootstrap script in order. -/
def create_tables_if_not_exists (s : Schema) : Schema :=
  { tables := createdTables.foldl createIfAbsent s.tables,
    indexes := createdIndexes.foldl createIfAbsent s.indexes }

/-! ## Session store -/

/-- The view projected by the `SELECT` of `get_session`. -/
def SessionRow.view (r : SessionRow) : SessionView :=
  ⟨r.user_id, r.username, r.discriminator, r.avatar, r.access_token,
   r.token_type, r.expires_at⟩

/-- `create_session` body (src/database.py:114-148), with the value of
`secrets.token_urlsafe(48)` passed in as `sid`: computes
`expires_at = now + token_data.get('expires_in', 604800)` and upserts the
session row keyed by `sid` (`ON CONFLICT (session_id) DO UPDATE SET
access_token, expires_at, last_activity`), returning `sid`. -/
def create_session (db : Db) (now : Int) (sid : String) (ud : UserData)
    (td : TokenData) : Db × Option String :=
  let expiry := now + td.expires_in.getD 604800
  if db.user_sessions.any (fun r => r.session_id == sid) then
    ({ db with user_sessions := db.user_sessions.map (fun r =>
        if r.session_id == sid then
          { r with access_token := td.access_token, expires_at := expiry,
                   last_activity := now }
        else r) },
     some sid)
  else
    ({ db with user_sessions := db.user_sessions ++
        [{ session_id := sid, user_id := ud.id, username := ud.username,
           discriminator := ud.discriminator.getD "0", avatar := ud.avatar,
           access_token := td.access_token, refresh_token := td.refresh_token,
           token_type := td.token_type.getD "Bearer", expires_at := expiry,
           created_at := now, last_activity := now }] },
     some sid)

/-- `get_session` body (src/database.py:150-185): `SELECT ... WHERE
session_id = %s AND expires_at > CURRENT_TIMESTAMP`; if a row is found,
`UPDATE user_sessions SET last_activity = CURRENT_TIMESTAMP WHERE
session_id = %s` and return the projected view, else return `None`. -/
def get_session (db : Db) (now : Int) (sid : String) : Db × Option SessionView :=
  match db.user_sessions.find? (fun r => r.session_id == sid && now < r.expires_at) with
  | none => (db, none)
  | some r =>
    ({ db with user_sessions := db.user_sessions.map (fun x =>
        if x.session_id == sid then { x with last_activity := now } else x) },
     some r.view)

/-- `delete_session` body (src/database.py:187-198): `DELETE FROM
user_sessions WHERE session_id = %s`, then `return True`. -/
def delete_session (db : Db) (sid : String) : Db × Bool :=
  ({ db with user_sessions := db.user_sessions.filter (fun r => !(r.session_id == sid)) },
   true)

/-! ## Guild directory -/

/-- The row inserted for one element of `guilds_data` by `sync_user_guilds`:
`(user_id, int(guild['id']), guild['name'], guild.get('icon'),
guild.get('owner', False), int(guild.get('permissions', 0)))`, with
`synced_at` defaulting to the current timestamp. -/
def GuildData.toUserGuildRow (g : GuildData) (u : Int) (now : Int) : UserGuildRow :=
  ⟨u, g.id, g.name, g.icon, g.owner.getD false, g.permissions.getD 0, now⟩

/-- `sync_user_guilds` body (src/database.py:200-226): `DELETE FROM
user_guilds WHERE user_id = %s`, then plain `INSERT` of each supplied guild.
A duplicate guild id within `guilds_data` violates `UNIQUE(user_id, guild_id)`,
the bare `except` returns `False`, and the uncommitted transaction is rolled
back, leaving the state unchanged. -/
def sync_user_guilds (db : Db) (now : Int) (u : Int) (gs : List GuildData) :
    Db × Bool :=
  if (gs.map GuildData.id).Nodup then
    ({ db with user_guilds :=
        (db.user_guilds.filter (fun r => !(r.user_id == u)) ++
          gs.map (fun g => g.toUserGuildRow u now)) },
     true)
  else
    (db, false)

/-- The row upserted into `bot_guilds` for one element of `guilds_data`. -/
def GuildData.toBotGuildRow (g : GuildData) (now : Int) : BotGuildRow :=
  ⟨g.id, g.name, g.member_count.getD 0, now⟩

/-- Upsert of one `bot_guilds` row: `INSERT ... ON CONFLICT (guild_id) DO
UPDATE SET guild_name, member_count, synced_at`. -/
def upsertBotGuild (rows : List BotGuildRow) (r : BotGuildRow) : List BotGuildRow :=
  if rows.any (fun b => b.guild_id == r.guild_id) then
    rows.map (fun b =>
      if b.guild_id == r.guild_id then
        { b with guild_name := r.guild_name, member_count := r.member_count,
                 synced_at := r.synced_at }
      else b)
  else
    rows ++ [r]

/-- `sync_bot_guilds` body (src/database.py:228-257): `DELETE FROM bot_guilds`
then upsert every supplied guild in order. -/
def sync_bot_guilds (db : Db) (now : Int) (gs : List GuildData) : Db × Bool :=
  ({ db with bot_guilds := gs.foldl (fun acc g => upsertBotGuild acc (g.toBotGuildRow now)) [] },
   true)

/-- `add_bot_guild` body (src/database.py:259-277). -/
def add_bot_guild (db : Db) (now : Int) (g : Int) (name : String) (mc : Int) :
    Db × Bool :=
  ({ db with bot_guilds := upsertBotGuild db.bot_guilds ⟨g, name, mc, now⟩ }, true)

/-- `remove_bot_guild` body (src/database.py:279-290). -/
def remove_bot_guild (db : Db) (g : Int) : Db × Bool :=
  ({ db with bot_guilds := db.bot_guilds.filter (fun b => !(b.guild_id == g)) }, true)

/-- `is_bot_in_guild` body (src/database.py:292-305): `SELECT EXISTS(...)`. -/
def is_bot_in_guild (db : Db) (g : Int) : Db × Bool :=
  (db, db.bot_guilds.any (fun b => b.guild_id == g))

/-- The `GuildView` produced for a `user_guilds` row joined with a given
`bot_present` flag. -/
def UserGuildRow.view (r : UserGuildRow) (present : Bool) : GuildView :=
  ⟨r.guild_id, r.guild_name, r.guild_icon, r.owner, r.permissions, present⟩

/-- `LEFT JOIN bot_guilds bg ON ug.guild_id = bg.guild_id` for one left row:
one output per matching right row with `bot_present = TRUE`, or a single
null-padded output with `bot_present = FALSE` when nothing matches. -/
def leftJoinViews (bgs : List BotGuildRow) (r : UserGuildRow) : List GuildView :=
  match bgs.filter (fun b => b.guild_id == r.guild_id) with
  | [] => [r.view false]
  | ms => ms.map (fun _ => r.view true)

/-- The comparison used by `ORDER BY ug.guild_name`. -/
def viewNameLe (a b : GuildView) : Bool :=
  decide (a.guild_name ≤ b.guild_name)

/-- `get_user_guilds` body (src/database.py:307-346): filter the user's
`user_guilds` rows, left-join `bot_guilds`, in `manageable_only` mode keep
rows with `ug.owner = TRUE OR (ug.permissions & 8) = 8` and
`bg.guild_id IS NOT NULL`, and sort by `ug.guild_name`. -/
def get_user_guilds (db : Db) (u : Int) (manageable_only : Bool) :
    Db × List GuildView :=
  let joined := (db.user_guilds.filter (fun r => r.user_id == u)).flatMap
    (leftJoinViews db.bot_guilds)
  let selected := if manageable_only then
      joined.filter (fun v => (v.owner || (Int.land v.permissions 8 == 8)) && v.bot_present)
    else joined
  (db, selected.mergeSort viewNameLe)

/-- `check_user_guild_permission` body (src/database.py:348-368). -/
def check_user_guild_permission (db : Db) (u : Int) (g : Int) : Db × Bool :=
  match db.user_guilds.find? (fun r => r.user_id == u && r.guild_id == g) with
  | none => (db, false)
  | some r => (db, r.owner || (Int.land r.permissions 8 == 8))

/-! ## Audit log and message record -/

/-- `log_action` body (src/database.py:370-384): append-only insert. -/
def log_action (db : Db) (now : Int) (u : Int) (g : Int) (action : String)
    (details : Option String) (ip : Option String) : Db × Bool :=
  ({ db with audit_logs := db.audit_logs ++ [⟨u, g, action, details, ip, now⟩] },
   true)

/-- `get_test_message` body (src/database.py:386-400). -/
def get_test_message (db : Db) (g : Int) : Db × Option String :=
  (db, (db.guild_messages.find? (fun r => r.guild_id == g)).map
    (fun r => r.test_message))

/-- `insert_or_update_message` body (src/database.py:402-420):
`INSERT ... ON CONFLICT (guild_id) DO UPDATE SET test_message, updated_at`. -/
def insert_or_update_message (db : Db) (now : Int) (g : Int) (m : String) :
    Db × Bool :=
  if db.guild_messages.any (fun r => r.guild_id == g) then
    ({ db with guild_messages := db.guild_messages.map (fun r =>
        if r.guild_id == g then { r with test_message := m, updated_at := now }
        else r) },
     true)
  else
    ({ db with guild_messages := db.guild_messages ++ [⟨g, m, now⟩] }, true)

/-! ## Token store (spec §4.4; not present under src/) -/

/-- The condition of the single conditional `UPDATE` of `validateAndConsume`:
the row matches the token and guild, is unused, and is unexpired. -/
def tokenConsumable (now : Int) (t : String) (g : Int) (r : ConfigTokenRow) : Bool :=
  r.token == t && r.guild_id == g && !r.used && now < r.expires_at

/-- Modelled from the spec: the Token Store's `validateAndConsume(token,
guildId)` is not among the files under src/; per §4.4 it is a single
conditional update (`UPDATE ... SET used = TRUE, used_at = now WHERE token
AND guild_id match AND used = FALSE AND expires_at > now`) that reports
success iff a row was actually updated. -/
def validate_and_consume (db : Db) (now : Int) (t : String) (g : Int) :
    Db × Bool :=
  ({ db with config_tokens := db.config_tokens.map (fun r =>
      if tokenConsumable now t g r then
        { r with used := true, used_at := some now }
      else r) },
   db.config_tokens.any (tokenConsumable now t g))

/-- A token value is consumed in a state when every `config_tokens` row
bearing it is marked `used`. -/
def tokenConsumed (db : Db) (t : String) : Prop :=
  ∀ r ∈ db.config_tokens, r.token = t → r.used = true

/-! ## Session-id generation (`secrets.token_urlsafe(48)`, src/database.py:115) -/

/-- The byte count passed to `secrets.token_urlsafe` by `create_session`. -/
def session_id_nbytes : Nat := 48

/-- The URL-safe base64 alphabet used by `secrets.token_urlsafe`. -/
def b64chars : List Char :=
  "ABCDEFGHIJKLMNOPQRSTUVWXYZabcdefghijklmnopqrstuvwxyz0123456789-_".toList

/-- The URL-safe base64 digit for a 6-bit index. -/
def b64digit (i : Nat) : Char := b64chars.getD i 'A'

/-- Unpadded URL-safe base64 of a byte string, as produced by
`secrets.token_urlsafe` (three input bytes per four output digits; the
trailing `=` padding is stripped, so short final groups emit fewer digits). -/
def b64url : List Nat → List Char
  | b0 :: b1 :: b2 :: rest =>
    b64digit (b0 / 4) :: b64digit (b0 % 4 * 16 + b1 / 16) ::
      b64digit (b1 % 16 * 4 + b2 / 64) :: b64digit (b2 % 64) :: b64url rest
  | [b0, b1] => [b64digit (b0 / 4), b64digit (b0 % 4 * 16 + b1 / 16), b64digit (b1 % 16 * 4)]
  | [b0] => [b64digit (b0 / 4), b64digit (b0 % 4 * 16)]
  | [] => []

/-! ## `ConfigManager.get_bool` string coercion (src/config_manager.py:76-84) -/

/-- Whether `needle` begins `hay`, element by element. -/
def listStartsWith : List Char → List Char → Bool
  | _, [] => true
  | [], _ :: _ => false
  | c :: cs, d :: ds => c == d && listStartsWith cs ds

/-- Whether `needle` occurs contiguously inside `hay`: the meaning of the
Python expression `needle in hay` on strings. -/
def listContainsSub : List Char → List Char → Bool
  | [], needle => listStartsWith [] needle
  | c :: cs, needle => listStartsWith (c :: cs) needle || listContainsSub cs needle

/-- Python's `str.lower()`, character by character (ASCII range, matching
the letters relevant to `get_bool`). -/
def pyLower (s : String) : List Char := s.toList.map Char.toLower

/-- The string branch of `ConfigManager.get_bool`: Python's
`value.lower() in "true"`, a substring test of the lower-cased value
against the literal `"true"`. -/
def get_bool_of_string (s : String) : Bool :=
  listContainsSub "true".toList (pyLower s)

/-! ## Fault-wrapped runners for the public storage operations -/

/-- `create_session` with the pool/fault control flow. -/
def create_session_op (acqOk queryOk : Bool) (db : Db) (now : Int) (sid : String)
    (ud : UserData) (td : TokenData) : Except DbFault (Db × Option String) :=
  runOp acqOk queryOk db none (create_session db now sid ud td)

/-- `get_session` with the pool/fault control flow. -/
def get_session_op (acqOk queryOk : Bool) (db : Db) (now : Int) (sid : String) :
    Except DbFault (Db × Option SessionView) :=
  runOp acqOk queryOk db none (get_session db now sid)

/-- `delete_session` with the pool/fault control flow. -/
def delete_session_op (acqOk queryOk : Bool) (db : Db) (sid : String) :
    Except DbFault (Db × Bool) :=
  runOp acqOk queryOk db false (delete_session db sid)

/-- `sync_user_guilds` with the pool/fault control flow. -/
def sync_user_guilds_op (acqOk queryOk : Bool) (db : Db) (now : Int) (u : Int)
    (gs : List GuildData) : Except DbFault (Db × Bool) :=
  runOp acqOk queryOk db false (sync_user_guilds db now u gs)

/-- `sync_bot_guilds` with the pool/fault control flow. -/
def sync_bot_guilds_op (acqOk queryOk : Bool) (db : Db) (now : Int)
    (gs : List GuildData) : Except DbFault (Db × Bool) :=
  runOp acqOk queryOk db false (sync_bot_guilds db now gs)

/-- `add_bot_guild` with the pool/fault control flow. -/
def add_bot_guild_op (acqOk queryOk : Bool) (db : Db) (now : Int) (g : Int)
    (name : String) (mc : Int) : Except DbFault (Db × Bool) :=
  runOp acqOk queryOk db false (add_bot_guild db now g name mc)

/-- `remove_bot_guild` with the pool/fault control flow. -/
def remove_bot_guild_op (acqOk queryOk : Bool) (db : Db) (g : Int) :
    Except DbFault (Db × Bool) :=
  runOp acqOk queryOk db false (remove_bot_guild db g)

/-- `is_bot_in_guild` with the pool/fault control flow. -/
def is_bot_in_guild_op (acqOk queryOk : Bool) (db : Db) (g : Int) :
    Except DbFault (Db × Bool) :=
  runOp acqOk queryOk db false (is_bot_in_guild db g)

/-- `get_user_guilds` with the pool/fault control flow. -/
def get_user_guilds_op (acqOk queryOk : Bool) (db : Db) (u : Int)
    (manageable_only : Bool) : Except DbFault (Db × List GuildView) :=
  runOp acqOk queryOk db [] (get_user_guilds db u manageable_only)

/-- `check_user_guild_permission` with the pool/fault control flow. -/
def check_user_guild_permission_op (acqOk queryOk : Bool) (db : Db) (u : Int)
    (g : Int) : Except DbFault (Db × Bool) :=
  runOp acqOk queryOk db false (check_user_guild_permission db u g)

/-- `log_action` with the pool/fault control flow. -/
def log_action_op (acqOk queryOk : Bool) (db : Db) (now : Int) (u : Int) (g : Int)
    (action : String) (details ip : Option String) : Except DbFault (Db × Bool) :=
  runOp acqOk queryOk db false (log_action db now u g action details ip)

/-- `get_test_message` with the pool/fault control flow. -/
def get_test_message_op (acqOk queryOk : Bool) (db : Db) (g : Int) :
    Except DbFault (Db × Option String) :=
  runOp acqOk queryOk db none (get_test_message db g)

/-- `insert_or_update_message` with the pool/fault control flow. -/
def insert_or_update_message_op (acqOk queryOk : Bool) (db : Db) (now : Int)
    (g : Int) (m : String) : Except DbFault (Db × Bool) :=
  runOp acqOk queryOk db false (insert_or_update_message db now g m)

/-! ## Key-uniqueness invariants backed by the schema's primary keys -/

/-- `user_sessions.session_id` is a primary key. -/
def Db.SessionsWF (db : Db) : Prop :=
  (db.user_sessions.map SessionRow.session_id).Nodup

/-- `guild_messages.guild_id` is a primary key. -/
def Db.MessagesWF (db : Db) : Prop :=
  (db.guild_messages.map GuildMessageRow.guild_id).Nodup

/-- `bot_guilds.guild_id` is a primary key. -/
def Db.BotGuildsWF (db : Db) : Prop :=
  (db.bot_guilds.map BotGuildRow.guild_id).Nodup

/-- `config_tokens.token` is a primary key. -/
def Db.TokensWF (db : Db) : Prop :=
  (db.config_tokens.map ConfigTokenRow.token).Nodup

/-! ## Helper lemmas -/

theorem createIfAbsent_mem (acc : List String) (a t : String) :
    t ∈ createIfAbsent acc a ↔ t ∈ acc ∨ t = a := by
  unfold createIfAbsent
  by_cases h : a ∈ acc
  · rw [if_pos h]
    constructor
    · exact Or.inl
    · rintro (h2 | rfl)
      · exact h2
      · exact h
  · rw [if_neg h]
    simp

theorem foldl_createIfAbsent_mem :
    ∀ (names acc : List String) (t : String),
      t ∈ names.foldl createIfAbsent acc ↔ t ∈ acc ∨ t ∈ names
  | [], acc, t => by simp
  | a :: ns, acc, t => by
    rw [List.foldl_cons, foldl_createIfAbsent_mem ns (createIfAbsent acc a) t,
      createIfAbsent_mem]
    simp [or_assoc]

theorem foldl_createIfAbsent_of_subset :
    ∀ (names acc : List String), (∀ a ∈ names, a ∈ acc) →
      names.foldl createIfAbsent acc = acc
  | [], _, _ => rfl
  | a :: ns, acc, h => by
    rw [List.foldl_cons, createIfAbsent, if_pos (h a (List.mem_cons_self a ns))]
    exact foldl_createIfAbsent_of_subset ns acc
      (fun x hx => h x (List.mem_cons_of_mem a hx))

theorem listStartsWith_iff :
    ∀ (hay needle : List Char), listStartsWith hay needle = true ↔ ∃ r, hay = needle ++ r
  | hay, [] => by simp [listStartsWith]
  | [], d :: ds => by simp [listStartsWith]
  | c :: cs, d :: ds => by
    simp only [listStartsWith, Bool.and_eq_true, beq_iff_eq,
      listStartsWith_iff cs ds, List.cons_append, List.cons.injEq]
    constructor
    · rintro ⟨rfl, r, rfl⟩
      exact ⟨r, rfl, rfl⟩
    · rintro ⟨r, rfl, h2⟩
      exact ⟨rfl, r, h2⟩

theorem listContainsSub_iff :
    ∀ (hay needle : List Char),
      listContainsSub hay needle = true ↔ ∃ l r, hay = l ++ needle ++ r
  | [], needle => by
    rw [listContainsSub, listStartsWith_iff]
    constructor
    · rintro ⟨r, h⟩
      exact ⟨[], r, h⟩
    · rintro ⟨l, r, h⟩
      rcases List.append_eq_nil.mp h.symm with ⟨h1, rfl⟩
      rcases List.append_eq_nil.mp h1 with ⟨rfl, rfl⟩
      exact ⟨[], rfl⟩
  | c :: cs, needle => by
    rw [listContainsSub, Bool.or_eq_true, listStartsWith_iff,
      listContainsSub_iff cs needle]
    constructor
    · rintro (⟨r, h⟩ | ⟨l, r, h⟩)
      · exact ⟨[], r, by simpa using h⟩
      · exact ⟨c :: l, r, by simp [h]⟩
    · rintro ⟨l, r, h⟩
      match l, h with
      | [], h => exact Or.inl ⟨r, by simpa using h⟩
      | x :: l', h =>
        simp only [List.cons_append, List.cons.injEq] at h
        exact Or.inr ⟨l', r, h.2⟩

theorem filter_key_eq_singleton {α β : Type} [DecidableEq β] (key : α → β) :
    ∀ (l : List α), (l.map key).Nodup → ∀ r₀ ∈ l,
      l.filter (fun r => key r == key r₀) = [r₀]
  | [], _, r₀, hr₀ => absurd hr₀ (List.not_mem_nil r₀)
  | a :: t, hnd, r₀, hr₀ => by
    rw [List.map_cons, List.nodup_cons] at hnd
    rcases List.mem_cons.mp hr₀ with rfl | hmem
    · rw [List.filter_cons, if_pos (by simp)]
      have ht : t.filter (fun r => key r == key r₀) = [] := by
        rw [List.filter_eq_nil_iff]
        intro x hx hkey
        have hxk : key x = key r₀ := by simpa using hkey
        exact hnd.1 (by
          rw [← hxk]
          exact List.mem_map_of_mem key hx)
      rw [ht]
    · have hne : (key a == key r₀) = false := by
        rw [beq_eq_false_iff_ne]
        intro hEq
        exact hnd.1 (hEq ▸ List.mem_map_of_mem key hmem)
      rw [List.filter_cons, if_neg (by simp [hne])]
      exact filter_key_eq_singleton key t hnd.2 r₀ hmem

theorem flatMap_eq_map_of_forall_singleton {α β : Type} (f : α → List β) (g : α → β) :
    ∀ (l : List α), (∀ a ∈ l, f a = [g a]) → l.flatMap f = l.map g
  | [], _ => rfl
  | a :: t, h => by
    rw [List.flatMap_cons, h a (List.mem_cons_self a t), List.map_cons,
      flatMap_eq_map_of_forall_singleton f g t
        (fun x hx => h x (List.mem_cons_of_mem a hx)),
      List.singleton_append]

theorem b64digit_mem (k : Nat) : b64digit k ∈ b64chars := by
  by_cases h : k < 64
  · exact (by decide : ∀ m, m < 64 → b64digit m ∈ b64chars) k h
  · unfold b64digit
    rw [List.getD_eq_getElem?_getD, List.getElem?_eq_none (by
      rw [show b64chars.length = 64 from by decide]
      omega), Option.getD_none]
    decide

theorem b64url_mem : ∀ (bs : List Nat), ∀ c ∈ b64url bs, c ∈ b64chars
  | [] => by intro c hc; simp [b64url] at hc
  | [b0] => by
    intro c hc
    simp only [b64url, List.mem_cons, List.not_mem_nil, or_false] at hc
    rcases hc with rfl | rfl <;> exact b64digit_mem _
  | [b0, b1] => by
    intro c hc
    simp only [b64url, List.mem_cons, List.not_mem_nil, or_false] at hc
    rcases hc with rfl | rfl | rfl <;> exact b64digit_mem _
  | b0 :: b1 :: b2 :: rest => by
    intro c hc
    simp only [b64url, List.mem_cons] at hc
    rcases hc with rfl | rfl | rfl | rfl | hc
    · exact b64digit_mem _
    · exact b64digit_mem _
    · exact b64digit_mem _
    · exact b64digit_mem _
    · exact b64url_mem rest c hc

theorem find?_of_filter_singleton {α : Type} {p : α → Bool} :
    ∀ {l : List α} {x : α}, l.filter p = [x] → l.find? p = some x
  | [], x, h => by simp at h
  | a :: t, x, h => by
    rw [List.filter_cons] at h
    by_cases ha : p a = true
    · rw [if_pos ha] at h
      rw [List.cons.injEq] at h
      rw [List.find?_cons_of_pos _ ha, h.1]
    · rw [if_neg ha] at h
      rw [List.find?_cons_of_neg _ (by simpa using ha)]
      exact find?_of_filter_singleton h

theorem filter_self_and_not {α : Type} (p : α → Bool) (l : List α) :
    (l.filter (fun a => !(p a))).filter p = [] := by
  rw [List.filter_filter]
  exact List.filter_eq_nil_iff.mpr (fun a _ => by cases h : p a <;> simp [h])

theorem filter_not_idem {α : Type} (p : α → Bool) (l : List α) :
    (l.filter (fun a => !(p a))).filter (fun a => !(p a)) =
      l.filter (fun a => !(p a)) := by
  rw [List.filter_filter]
  exact List.filter_congr (fun a _ => by cases h : p a <;> simp [h])

theorem upsert_message_filter (db : Db) (now g : Int) (m : String)
    (hnd : db.MessagesWF) :
    (insert_or_update_message db now g m).1.guild_messages.filter
      (fun r => r.guild_id == g) = [⟨g, m, now⟩] := by
  rw [insert_or_update_message]
  by_cases h : db.guild_messages.any (fun r => r.guild_id == g) = true
  · rw [if_pos h]
    obtain ⟨r₀, hr₀, hkey⟩ := List.any_eq_true.mp h
    have hkey2 : r₀.guild_id = g := beq_iff_eq.mp hkey
    show (db.guild_messages.map _).filter _ = _
    rw [List.filter_map,
      List.filter_congr (fun (r : GuildMessageRow) _ =>
        show ((fun x : GuildMessageRow => x.guild_id == g) ∘ fun x : GuildMessageRow =>
            if x.guild_id == g then
              { x with test_message := m, updated_at := now } else x) r
          = (r.guild_id == g) from by
          by_cases hr : r.guild_id == g <;> simp [Function.comp, hr]),
      show (fun r : GuildMessageRow => r.guild_id == g)
          = (fun r : GuildMessageRow => r.guild_id == r₀.guild_id) from by
        rw [hkey2],
      filter_key_eq_singleton GuildMessageRow.guild_id db.guild_messages hnd r₀ hr₀,
      List.map_singleton, if_pos hkey]
    simp [hkey2]
  · rw [if_neg h]
    show (db.guild_messages ++ _).filter _ = _
    rw [List.filter_append,
      List.filter_eq_nil_iff.mpr (fun r hr hcontra =>
        h (List.any_eq_true.mpr ⟨r, hr, hcontra⟩))]
    simp

theorem upsert_message_wf (db : Db) (now g : Int) (m : String)
    (hnd : db.MessagesWF) :
    (insert_or_update_message db now g m).1.MessagesWF := by
  rw [insert_or_update_message]
  by_cases h : db.guild_messages.any (fun r => r.guild_id == g) = true
  · rw [if_pos h]
    show ((db.guild_messages.map _).map GuildMessageRow.guild_id).Nodup
    rw [List.map_map,
      List.map_congr_left (fun (r : GuildMessageRow) _ =>
        show (GuildMessageRow.guild_id ∘ _) r = r.guild_id from by
          by_cases hr : r.guild_id == g <;> simp [Function.comp, hr])]
    exact hnd
  · rw [if_neg h]
    show ((db.guild_messages ++ _).map GuildMessageRow.guild_id).Nodup
    have hfalse : db.guild_messages.any (fun r => r.guild_id == g) = false := by
      cases hx : db.guild_messages.any (fun r => r.guild_id == g)
      · rfl
      · exact absurd hx h
    have h2 := List.any_eq_false.mp hfalse
    rw [List.map_append, List.map_singleton, List.nodup_append]
    refine ⟨hnd, List.nodup_singleton _, fun a ha => ?_⟩
    obtain ⟨r, hr, rfl⟩ := List.mem_map.mp ha
    intro hmem
    rw [List.mem_singleton] at hmem
    exact h2 r hr (by simp [hmem])

theorem leftJoinViews_nodup_eq (bgs : List BotGuildRow)
    (hnd : (bgs.map BotGuildRow.guild_id).Nodup) (r : UserGuildRow) :
    leftJoinViews bgs r =
      [r.view (bgs.any (fun b => b.guild_id == r.guild_id))] := by
  simp only [leftJoinViews]
  cases hf : bgs.filter (fun b => b.guild_id == r.guild_id) with
  | nil =>
    have hany : bgs.any (fun b => b.guild_id == r.guild_id) = false := by
      rw [List.any_eq_false]
      exact List.filter_eq_nil_iff.mp hf
    rw [hany]
  | cons m ms =>
    have hm : m ∈ bgs.filter (fun b => b.guild_id == r.guild_id) := by
      rw [hf]
      exact List.mem_cons_self m ms
    have hmem := (List.mem_filter.mp hm).1
    have hkey : (m.guild_id == r.guild_id) = true := (List.mem_filter.mp hm).2
    have hany : bgs.any (fun b => b.guild_id == r.guild_id) = true :=
      List.any_eq_true.mpr ⟨m, hmem, hkey⟩
    have hsingle : bgs.filter (fun b => b.guild_id == m.guild_id) = [m] :=
      filter_key_eq_singleton BotGuildRow.guild_id bgs hnd m hmem
    rw [beq_iff_eq.mp hkey, hf] at hsingle
    have hms : ms = [] := (List.cons.injEq _ _ _ _).mp hsingle |>.2
    rw [hms, hany]
    rfl

theorem viewNameLe_trans :
    ∀ (a b c : GuildView), viewNameLe a b → viewNameLe b c → viewNameLe a c := by
  intro a b c hab hbc
  simp only [viewNameLe, decide_eq_true_eq] at hab hbc ⊢
  exact le_trans hab hbc

theorem viewNameLe_total :
    ∀ (a b : GuildView), viewNameLe a b || viewNameLe b a := by
  intro a b
  simp only [viewNameLe]
  rcases le_total a.guild_name b.guild_name with h | h
  · simp [h]
  · simp [h]

theorem get_user_guilds_of_no_rows (db : Db) (u : Int) (mo : Bool)
    (h : db.user_guilds.filter (fun r => r.user_id == u) = []) :
    (get_user_guilds db u mo).2 = [] := by
  simp only [get_user_guilds, h]
  cases mo <;> simp [List.mergeSort]

/-! ## Claim theorems -/

/-- C2 (counterexample): the schema bootstrap
`_create_tables_if_not_exists` does not create the `config_tokens`
relation: running it against an empty store leaves `config_tokens` absent. -/
theorem c2_counterexample :
    "config_tokens" ∉ (create_tables_if_not_exists ⟨[], []⟩).tables := by
  decide

/-- C2 (amended): schema bootstrap at Pool Manager initialization creates the
relations guild_messages, user_sessions, user_guilds, bot_guilds and
audit_logs and their three indexes, each only if absent, so running it
against an already-migrated store is a no-op; the `config_tokens` relation
listed in the external-interface section is not among those it creates. -/
theorem c2_bootstrap_idempotent (s : Schema) :
    (∀ t, t ∈ (create_tables_if_not_exists s).tables ↔
       t ∈ s.tables ∨ t ∈ createdTables) ∧
    (∀ i, i ∈ (create_tables_if_not_exists s).indexes ↔
       i ∈ s.indexes ∨ i ∈ createdIndexes) ∧
    create_tables_if_not_exists (create_tables_if_not_exists s) =
      create_tables_if_not_exists s ∧
    ((∀ t ∈ createdTables, t ∈ s.tables) → (∀ i ∈ createdIndexes, i ∈ s.indexes) →
      create_tables_if_not_exists s = s) ∧
    "config_tokens" ∉ createdTables := by
  refine ⟨fun t => foldl_createIfAbsent_mem _ _ _,
    fun i => foldl_createIfAbsent_mem _ _ _, ?_, ?_, by decide⟩
  · simp only [create_tables_if_not_exists]
    rw [foldl_createIfAbsent_of_subset createdTables _
        (fun a ha => (foldl_createIfAbsent_mem createdTables s.tables a).mpr (Or.inr ha)),
      foldl_createIfAbsent_of_subset createdIndexes _
        (fun a ha => (foldl_createIfAbsent_mem createdIndexes s.indexes a).mpr (Or.inr ha))]
  · intro h1 h2
    cases s with
    | mk tabs idxs =>
      simp only [create_tables_if_not_exists]
      rw [foldl_createIfAbsent_of_subset _ _ h1, foldl_createIfAbsent_of_subset _ _ h2]

/-- C2 (witness): the amended bootstrap contract instantiated at the empty
catalog. -/
theorem c2_bootstrap_idempotent_witness :
    (∀ t, t ∈ (create_tables_if_not_exists ⟨[], []⟩).tables ↔
       t ∈ (Schema.mk [] []).tables ∨ t ∈ createdTables) ∧
    (∀ i, i ∈ (create_tables_if_not_exists ⟨[], []⟩).indexes ↔
       i ∈ (Schema.mk [] []).indexes ∨ i ∈ createdIndexes) ∧
    create_tables_if_not_exists (create_tables_if_not_exists ⟨[], []⟩) =
      create_tables_if_not_exists ⟨[], []⟩ ∧
    ((∀ t ∈ createdTables, t ∈ (Schema.mk [] []).tables) →
      (∀ i ∈ createdIndexes, i ∈ (Schema.mk [] []).indexes) →
      create_tables_if_not_exists ⟨[], []⟩ = ⟨[], []⟩) ∧
    "config_tokens" ∉ createdTables :=
  c2_bootstrap_idempotent ⟨[], []⟩

/-- C6 (counterexample): a fault raised by the storage layer while acquiring
a connection from the pool is not caught: `get_test_message` propagates it
instead of returning its default `None`. -/
theorem c6_counterexample :
    get_test_message_op false true Db.empty 1 = Except.error DbFault.connError ∧
    get_test_message_op false true Db.empty 1 ≠
      Except.ok (Db.empty, (none : Option String)) :=
  ⟨rfl, fun h => Except.noConfusion h⟩

/-- C6 (amended): every public storage operation catches any fault raised
inside its unit of work (query execution or commit), rolls the transaction
back and returns its explicit default result (None, False or an empty
list); a fault raised while acquiring the pool connection, which happens
before the protected block, propagates to the caller instead. -/
theorem c6_fault_policy :
    ∀ (db : Db) (now u g mc : Int) (sid gname action m : String) (ud : UserData)
      (td : TokenData) (gs : List GuildData) (details ip : Option String)
      (manageable qOk : Bool),
      (create_session_op true false db now sid ud td = Except.ok (db, none) ∧
       get_session_op true false db now sid = Except.ok (db, none) ∧
       delete_session_op true false db sid = Except.ok (db, false) ∧
       sync_user_guilds_op true false db now u gs = Except.ok (db, false) ∧
       sync_bot_guilds_op true false db now gs = Except.ok (db, false) ∧
       add_bot_guild_op true false db now g gname mc = Except.ok (db, false) ∧
       remove_bot_guild_op true false db g = Except.ok (db, false) ∧
       is_bot_in_guild_op true false db g = Except.ok (db, false) ∧
       get_user_guilds_op true false db u manageable = Except.ok (db, []) ∧
       check_user_guild_permission_op true false db u g = Except.ok (db, false) ∧
       log_action_op true false db now u g action details ip = Except.ok (db, false) ∧
       get_test_message_op true false db g = Except.ok (db, none) ∧
       insert_or_update_message_op true false db now g m = Except.ok (db, false)) ∧
      (create_session_op false qOk db now sid ud td = Except.error DbFault.connError ∧
       get_session_op false qOk db now sid = Except.error DbFault.connError ∧
       delete_session_op false qOk db sid = Except.error DbFault.connError ∧
       sync_user_guilds_op false qOk db now u gs = Except.error DbFault.connError ∧
       sync_bot_guilds_op false qOk db now gs = Except.error DbFault.connError ∧
       add_bot_guild_op false qOk db now g gname mc = Except.error DbFault.connError ∧
       remove_bot_guild_op false qOk db g = Except.error DbFault.connError ∧
       is_bot_in_guild_op false qOk db g = Except.error DbFault.connError ∧
       get_user_guilds_op false qOk db u manageable = Except.error DbFault.connError ∧
       check_user_guild_permission_op false qOk db u g = Except.error DbFault.connError ∧
       log_action_op false qOk db now u g action details ip = Except.error DbFault.connError ∧
       get_test_message_op false qOk db g = Except.error DbFault.connError ∧
       insert_or_update_message_op false qOk db now g m = Except.error DbFault.connError) := by
  intros
  exact ⟨⟨rfl, rfl, rfl, rfl, rfl, rfl, rfl, rfl, rfl, rfl, rfl, rfl, rfl⟩,
         ⟨rfl, rfl, rfl, rfl, rfl, rfl, rfl, rfl, rfl, rfl, rfl, rfl, rfl⟩⟩

/-- C8: `create_session` generates the session id by URL-safe-base64
encoding 48 random bytes (at least 256 bits of randomness, every character
drawn from the URL-safe alphabet), stores a session row keyed by that id
with `expires_at = now + token_data.get('expires_in', 604800)` — seven days
when `expires_in` is absent — and returns the id. -/
theorem c8_create_session_entropy_and_expiry (db : Db) (now : Int)
    (ud : UserData) (td : TokenData) (bytes : List Nat)
    (hlen : bytes.length = session_id_nbytes) :
    (create_session db now (String.mk (b64url bytes)) ud td).2
      = some (String.mk (b64url bytes)) ∧
    (∃ r ∈ (create_session db now (String.mk (b64url bytes)) ud td).1.user_sessions,
       r.session_id = String.mk (b64url bytes) ∧
       r.expires_at = now + td.expires_in.getD 604800) ∧
    (td.expires_in = none → now + td.expires_in.getD 604800 = now + 604800) ∧
    (∀ c ∈ (String.mk (b64url bytes)).data, c ∈ b64chars) ∧
    256 ≤ 8 * bytes.length := by
  refine ⟨?_, ?_, ?_, ?_, ?_⟩
  · simp only [create_session]
    by_cases h : db.user_sessions.any
        (fun r => r.session_id == String.mk (b64url bytes)) = true
    · rw [if_pos h]
    · rw [if_neg h]
  · simp only [create_session]
    by_cases h : db.user_sessions.any
        (fun r => r.session_id == String.mk (b64url bytes)) = true
    · rw [if_pos h]
      obtain ⟨r₀, hr₀, hk⟩ := List.any_eq_true.mp h
      refine ⟨_, List.mem_map.mpr ⟨r₀, hr₀, rfl⟩, ?_, ?_⟩
      · simp only [hk, if_true]
        exact beq_iff_eq.mp hk
      · simp only [hk, if_true]
    · rw [if_neg h]
      refine ⟨_, List.mem_append_right _ (List.mem_singleton_self _), rfl, rfl⟩
  · intro h
    rw [h]
    rfl
  · intro c hc
    exact b64url_mem bytes c hc
  · rw [hlen]
    decide

/-- C8 (witness): 48 zero bytes as the entropy source. -/
theorem c8_create_session_entropy_and_expiry_witness :
    (List.replicate 48 0).length = session_id_nbytes ∧
    ((create_session Db.empty 3 (String.mk (b64url (List.replicate 48 0)))
        ⟨9, "alice", none, none⟩ ⟨"tokA", none, none, none⟩).2
      = some (String.mk (b64url (List.replicate 48 0))) ∧
     (∃ r ∈ (create_session Db.empty 3 (String.mk (b64url (List.replicate 48 0)))
        ⟨9, "alice", none, none⟩ ⟨"tokA", none, none, none⟩).1.user_sessions,
       r.session_id = String.mk (b64url (List.replicate 48 0)) ∧
       r.expires_at = 3 + (Option.getD (α := Int) none 604800)) ∧
     ((none : Option Int) = none →
        3 + (Option.getD (α := Int) none 604800) = 3 + 604800) ∧
     (∀ c ∈ (String.mk (b64url (List.replicate 48 0))).data, c ∈ b64chars) ∧
     256 ≤ 8 * (List.replicate 48 0).length) :=
  ⟨by decide,
   c8_create_session_entropy_and_expiry Db.empty 3 ⟨9, "alice", none, none⟩
     ⟨"tokA", none, none, none⟩ (List.replicate 48 0) (by decide)⟩

/-- C1: a configuration token is consumable at most once: when
`validate_and_consume` succeeds, every `config_tokens` row bearing that
token is left `used = TRUE` with `used_at` set to the consumption time, and
on any state where the token is consumed a later `validate_and_consume`
call on the same token returns `False` and leaves the state unchanged. -/
theorem c1_validate_and_consume_single_use (db : Db) (now : Int) (t : String)
    (g : Int) (hnd : db.TokensWF)
    (hok : (validate_and_consume db now t g).2 = true) :
    (∀ r ∈ (validate_and_consume db now t g).1.config_tokens,
       r.token = t → r.used = true ∧ r.used_at = some now) ∧
    tokenConsumed (validate_and_consume db now t g).1 t ∧
    (∀ (db2 : Db) (now2 : Int) (g2 : Int), tokenConsumed db2 t →
       validate_and_consume db2 now2 t g2 = (db2, false)) := by
  simp only [validate_and_consume] at hok
  have hmain : ∀ r ∈ (validate_and_consume db now t g).1.config_tokens,
      r.token = t → r.used = true ∧ r.used_at = some now := by
    intro r hr hrt
    simp only [validate_and_consume] at hr
    obtain ⟨x, hx, rfl⟩ := List.mem_map.mp hr
    by_cases hc : tokenConsumable now t g x = true
    · rw [if_pos hc]
      exact ⟨rfl, rfl⟩
    · rw [if_neg hc] at hrt ⊢
      obtain ⟨r₀, hr₀, hc₀⟩ := List.any_eq_true.mp hok
      have ht₀ : r₀.token = t := by
        have h2 := hc₀
        simp only [tokenConsumable, Bool.and_eq_true, beq_iff_eq] at h2
        exact h2.1.1.1
      rw [List.inj_on_of_nodup_map hnd hx hr₀ (by rw [hrt, ht₀])] at hc
      exact absurd hc₀ hc
  refine ⟨hmain, fun r hr hrt => (hmain r hr hrt).1, ?_⟩
  intro db2 now2 g2 hcons
  have hall : ∀ x ∈ db2.config_tokens, tokenConsumable now2 t g2 x = false := by
    intro x hx
    by_cases hxt : x.token = t
    · have hused := hcons x hx hxt
      simp [tokenConsumable, hused]
    · have hbeq : (x.token == t) = false := beq_eq_false_iff_ne.mpr hxt
      simp [tokenConsumable, hbeq]
  simp only [validate_and_consume]
  rw [Prod.mk.injEq]
  constructor
  · have hmap : ∀ x ∈ db2.config_tokens,
        (fun r => if tokenConsumable now2 t g2 r then
          { r with used := true, used_at := some now2 } else r) x = id x :=
      fun x hx => by simp [hall x hx]
    rw [List.map_congr_left hmap, List.map_id]
  · exact List.any_eq_false.mpr (fun x hx => by simp [hall x hx])

/-- C1 (witness): one fresh token for guild 42, consumed at time 1. -/
theorem c1_validate_and_consume_single_use_witness :
    ({ Db.empty with config_tokens := [⟨"tok", 42, 0, 100, false, none⟩] } : Db).TokensWF ∧
    (validate_and_consume
        { Db.empty with config_tokens := [⟨"tok", 42, 0, 100, false, none⟩] }
        1 "tok" 42).2 = true ∧
    ((∀ r ∈ (validate_and_consume
        { Db.empty with config_tokens := [⟨"tok", 42, 0, 100, false, none⟩] }
        1 "tok" 42).1.config_tokens,
       r.token = "tok" → r.used = true ∧ r.used_at = some 1) ∧
     tokenConsumed (validate_and_consume
        { Db.empty with config_tokens := [⟨"tok", 42, 0, 100, false, none⟩] }
        1 "tok" 42).1 "tok" ∧
     (∀ (db2 : Db) (now2 : Int) (g2 : Int), tokenConsumed db2 "tok" →
        validate_and_consume db2 now2 "tok" g2 = (db2, false))) :=
  ⟨by unfold Db.TokensWF; decide, by decide,
   c1_validate_and_consume_single_use
     { Db.empty with config_tokens := [⟨"tok", 42, 0, 100, false, none⟩] }
     1 "tok" 42 (by unfold Db.TokensWF; decide) (by decide)⟩

/-- C9: `delete_session` is an unconditional delete whose boolean result
reports only completion: absent a storage fault it returns `True` for every
session id, stored or not, and afterwards no session row for that id
exists; under a fault inside the unit of work it returns `False`. -/
theorem c9_delete_session_unconditional :
    ∀ (db : Db) (sid : String),
      delete_session_op true true db sid =
        Except.ok ((delete_session db sid).1, true) ∧
      (∀ r ∈ (delete_session db sid).1.user_sessions, r.session_id ≠ sid) ∧
      delete_session_op true false db sid = Except.ok (db, false) := by
  intro db sid
  refine ⟨rfl, ?_, rfl⟩
  intro r hr
  rw [delete_session] at hr
  simp only [List.mem_filter, Bool.not_eq_eq_eq_not, Bool.not_true,
    beq_eq_false_iff_ne] at hr
  exact hr.2

/-- C10: the string branch of `ConfigManager.get_bool` is a substring test
of the lower-cased value against the literal `"true"`: it returns `True`
exactly for strings whose lower-case form occurs contiguously inside
`"true"` — including `""`, `"t"`, `"ru"` and `"e"` — and `False` for all
other strings such as `"false"`. -/
theorem c10_get_bool_substring_coercion :
    (∀ s : String, get_bool_of_string s = true ↔
       ∃ l r, "true".toList = l ++ pyLower s ++ r) ∧
    get_bool_of_string "" = true ∧
    get_bool_of_string "t" = true ∧
    get_bool_of_string "ru" = true ∧
    get_bool_of_string "e" = true ∧
    get_bool_of_string "True" = true ∧
    get_bool_of_string "true" = true ∧
    get_bool_of_string "false" = false := by
  refine ⟨fun s => listContainsSub_iff _ _, ?_, ?_, ?_, ?_, ?_, ?_, ?_⟩ <;> decide

/-- C7: Message Record round-trip with overwrite: upserting `m` for guild `g`
then reading returns `m`; a second upsert of `m2` then reading returns `m2`;
and the store keeps a single `guild_messages` row for `g` rather than
accumulating duplicates. -/
theorem c7_message_upsert_roundtrip (db : Db) (now now2 g : Int) (m m2 : String)
    (hnd : db.MessagesWF) :
    (get_test_message (insert_or_update_message db now g m).1 g).2 = some m ∧
    (get_test_message (insert_or_update_message
        (insert_or_update_message db now g m).1 now2 g m2).1 g).2 = some m2 ∧
    ((insert_or_update_message (insert_or_update_message db now g m).1
        now2 g m2).1.guild_messages.filter (fun r => r.guild_id == g)).length
      = 1 := by
  have h1 := upsert_message_filter db now g m hnd
  have hwf1 := upsert_message_wf db now g m hnd
  have h2 := upsert_message_filter _ now2 g m2 hwf1
  refine ⟨?_, ?_, ?_⟩
  · simp only [get_test_message, Prod.snd]
    rw [find?_of_filter_singleton h1]
    rfl
  · simp only [get_test_message, Prod.snd]
    rw [find?_of_filter_singleton h2]
    rfl
  · rw [h2]
    rfl

/-- C3: `get_session` returns the stored session view exactly when a row for
the id exists with `expires_at` strictly in the future; in that case it sets
the row's `last_activity` to the current time (a value ≥ the previous one
whenever the clock has not gone backwards); when the row is absent or
expired it returns `None` and leaves the state unchanged, so absence and
expiry are indistinguishable to the caller. -/
theorem c3_get_session_expiry_and_refresh (db : Db) (now : Int) (sid : String)
    (hnd : db.SessionsWF) :
    ((get_session db now sid).2.isSome ↔
       ∃ r ∈ db.user_sessions, r.session_id = sid ∧ now < r.expires_at) ∧
    (∀ r ∈ db.user_sessions, r.session_id = sid → now < r.expires_at →
       (get_session db now sid).2 = some r.view ∧
       ∃ r' ∈ (get_session db now sid).1.user_sessions,
         r'.session_id = sid ∧ r'.last_activity = now ∧
         (r.last_activity ≤ now → r.last_activity ≤ r'.last_activity)) ∧
    ((∀ r ∈ db.user_sessions, r.session_id = sid → ¬ now < r.expires_at) →
       get_session db now sid = (db, none)) := by
  refine ⟨?_, ?_, ?_⟩
  · rw [get_session]
    cases hf : db.user_sessions.find?
        (fun r => r.session_id == sid && now < r.expires_at) with
    | none =>
      rw [List.find?_eq_none] at hf
      simp only [Option.isSome_none, Bool.false_eq_true, false_iff]
      rintro ⟨r, hr, h1, h2⟩
      exact hf r hr (by simp [h1, h2])
    | some r =>
      simp only [Option.isSome_some, true_iff]
      have hr := List.mem_of_find?_eq_some hf
      have hp := List.find?_some hf
      simp only [Bool.and_eq_true, beq_iff_eq, decide_eq_true_eq] at hp
      exact ⟨r, hr, hp.1, hp.2⟩
  · intro r hr h1 h2
    have hfind : db.user_sessions.find?
        (fun x => x.session_id == sid && now < x.expires_at) = some r := by
      cases hf : db.user_sessions.find?
          (fun x => x.session_id == sid && now < x.expires_at) with
      | none =>
        rw [List.find?_eq_none] at hf
        exact absurd (by simp [h1, h2]) (hf r hr)
      | some r2 =>
        have hr2 := List.mem_of_find?_eq_some hf
        have hp2 := List.find?_some hf
        simp only [Bool.and_eq_true, beq_iff_eq, decide_eq_true_eq] at hp2
        rw [List.inj_on_of_nodup_map hnd hr2 hr (by rw [hp2.1, h1])]
    constructor
    · rw [get_session, hfind]
    · rw [get_session, hfind]
      have hfr : (fun x : SessionRow =>
          if x.session_id == sid then { x with last_activity := now } else x) r
          = { r with last_activity := now } := by simp [h1]
      refine ⟨{ r with last_activity := now }, ?_, by simpa using h1, rfl,
        fun hmono => hmono⟩
      rw [← hfr]
      exact List.mem_map_of_mem _ hr
  · intro hall
    have hfind : db.user_sessions.find?
        (fun x => x.session_id == sid && now < x.expires_at) = none :=
      List.find?_eq_none.mpr (fun x hx hpx => by
        simp only [Bool.and_eq_true, beq_iff_eq, decide_eq_true_eq] at hpx
        exact hall x hx hpx.1 hpx.2)
    rw [get_session, hfind]

/-- C3 (witness): a concrete store with one valid and one expired session. -/
theorem c3_get_session_expiry_and_refresh_witness :
    ({ Db.empty with user_sessions :=
        [⟨"sid1", 9, "alice", "0", none, "tokA", none, "Bearer", 50, 0, 2⟩,
         ⟨"sid2", 9, "bob", "0", none, "tokB", none, "Bearer", 3, 0, 2⟩] } : Db).SessionsWF ∧
    (((get_session { Db.empty with user_sessions :=
        [⟨"sid1", 9, "alice", "0", none, "tokA", none, "Bearer", 50, 0, 2⟩,
         ⟨"sid2", 9, "bob", "0", none, "tokB", none, "Bearer", 3, 0, 2⟩] } 10 "sid1").2.isSome ↔
       ∃ r ∈ ({ Db.empty with user_sessions :=
        [⟨"sid1", 9, "alice", "0", none, "tokA", none, "Bearer", 50, 0, 2⟩,
         ⟨"sid2", 9, "bob", "0", none, "tokB", none, "Bearer", 3, 0, 2⟩] } : Db).user_sessions,
         r.session_id = "sid1" ∧ (10 : Int) < r.expires_at) ∧
     (∀ r ∈ ({ Db.empty with user_sessions :=
        [⟨"sid1", 9, "alice", "0", none, "tokA", none, "Bearer", 50, 0, 2⟩,
         ⟨"sid2", 9, "bob", "0", none, "tokB", none, "Bearer", 3, 0, 2⟩] } : Db).user_sessions,
        r.session_id = "sid1" → (10 : Int) < r.expires_at →
        (get_session { Db.empty with user_sessions :=
          [⟨"sid1", 9, "alice", "0", none, "tokA", none, "Bearer", 50, 0, 2⟩,
           ⟨"sid2", 9, "bob", "0", none, "tokB", none, "Bearer", 3, 0, 2⟩] } 10 "sid1").2 = some r.view ∧
        ∃ r' ∈ (get_session { Db.empty with user_sessions :=
          [⟨"sid1", 9, "alice", "0", none, "tokA", none, "Bearer", 50, 0, 2⟩,
           ⟨"sid2", 9, "bob", "0", none, "tokB", none, "Bearer", 3, 0, 2⟩] } 10 "sid1").1.user_sessions,
          r'.session_id = "sid1" ∧ r'.last_activity = 10 ∧
          (r.last_activity ≤ 10 → r.last_activity ≤ r'.last_activity)) ∧
     ((∀ r ∈ ({ Db.empty with user_sessions :=
        [⟨"sid1", 9, "alice", "0", none, "tokA", none, "Bearer", 50, 0, 2⟩,
         ⟨"sid2", 9, "bob", "0", none, "tokB", none, "Bearer", 3, 0, 2⟩] } : Db).user_sessions,
        r.session_id = "sid1" → ¬ (10 : Int) < r.expires_at) →
       get_session { Db.empty with user_sessions :=
        [⟨"sid1", 9, "alice", "0", none, "tokA", none, "Bearer", 50, 0, 2⟩,
         ⟨"sid2", 9, "bob", "0", none, "tokB", none, "Bearer", 3, 0, 2⟩] } 10 "sid1"
        = ({ Db.empty with user_sessions :=
          [⟨"sid1", 9, "alice", "0", none, "tokA", none, "Bearer", 50, 0, 2⟩,
           ⟨"sid2", 9, "bob", "0", none, "tokB", none, "Bearer", 3, 0, 2⟩] }, none))) :=
  ⟨by unfold Db.SessionsWF; decide,
   c3_get_session_expiry_and_refresh
     { Db.empty with user_sessions :=
        [⟨"sid1", 9, "alice", "0", none, "tokA", none, "Bearer", 50, 0, 2⟩,
         ⟨"sid2", 9, "bob", "0", none, "tokB", none, "Bearer", 3, 0, 2⟩] }
     10 "sid1" (by unfold Db.SessionsWF; decide)⟩

/-- C4: in `manageable_only` mode `get_user_guilds` returns exactly the
user's membership rows with `owner = TRUE` or the ADMINISTRATOR bit (mask
value 8) set, restricted to guilds present in `bot_guilds`, ordered by
guild name; with `manageable_only = False` it returns all of the user's
membership rows regardless of bot presence, each annotated with the
`bot_present` flag, again ordered by guild name. -/
theorem c4_get_user_guilds_manageable_filter (db : Db) (u : Int)
    (hnd : db.BotGuildsWF) :
    ((get_user_guilds db u true).2.Perm
       ((db.user_guilds.filter (fun r => r.user_id == u &&
           (r.owner || (Int.land r.permissions 8 == 8)) &&
           db.bot_guilds.any (fun b => b.guild_id == r.guild_id))).map
         (fun r => r.view true)) ∧
     (get_user_guilds db u true).2.Pairwise (fun a b => viewNameLe a b = true)) ∧
    ((get_user_guilds db u false).2.Perm
       ((db.user_guilds.filter (fun r => r.user_id == u)).map
         (fun r => r.view (db.bot_guilds.any (fun b => b.guild_id == r.guild_id)))) ∧
     (get_user_guilds db u false).2.Pairwise (fun a b => viewNameLe a b = true)) := by
  have hjoin : ∀ l : List UserGuildRow,
      l.flatMap (leftJoinViews db.bot_guilds) =
        l.map (fun r =>
          r.view (db.bot_guilds.any (fun b => b.guild_id == r.guild_id))) :=
    fun l => flatMap_eq_map_of_forall_singleton _ _ l
      (fun r _ => leftJoinViews_nodup_eq db.bot_guilds hnd r)
  constructor
  · have hstate : (get_user_guilds db u true).2 =
        (((db.user_guilds.filter (fun r => r.user_id == u)).map
            (fun r =>
              r.view (db.bot_guilds.any (fun b => b.guild_id == r.guild_id)))).filter
          (fun v => (v.owner || (Int.land v.permissions 8 == 8)) &&
            v.bot_present)).mergeSort viewNameLe := by
      simp only [get_user_guilds, hjoin, if_true]
    constructor
    · rw [hstate]
      refine (List.mergeSort_perm _ _).trans ?_
      rw [List.filter_map, List.filter_filter]
      have hpred : ∀ r : UserGuildRow,
          (((fun v : GuildView => (v.owner || (Int.land v.permissions 8 == 8)) &&
              v.bot_present) ∘ fun r : UserGuildRow =>
              r.view (db.bot_guilds.any (fun b => b.guild_id == r.guild_id))) r &&
            (r.user_id == u))
          = (r.user_id == u && (r.owner || (Int.land r.permissions 8 == 8)) &&
              db.bot_guilds.any (fun b => b.guild_id == r.guild_id)) := by
        intro r
        simp only [Function.comp, UserGuildRow.view]
        cases (r.user_id == u) <;> cases r.owner <;>
          cases (Int.land r.permissions 8 == 8) <;>
          cases (db.bot_guilds.any fun b => b.guild_id == r.guild_id) <;> rfl
      rw [List.filter_congr (fun r _ => hpred r)]
      have hmapeq : (db.user_guilds.filter (fun r => r.user_id == u &&
            (r.owner || (Int.land r.permissions 8 == 8)) &&
            db.bot_guilds.any (fun b => b.guild_id == r.guild_id))).map
            (fun r =>
              r.view (db.bot_guilds.any (fun b => b.guild_id == r.guild_id)))
          = (db.user_guilds.filter (fun r => r.user_id == u &&
              (r.owner || (Int.land r.permissions 8 == 8)) &&
              db.bot_guilds.any (fun b => b.guild_id == r.guild_id))).map
            (fun r => r.view true) :=
        List.map_congr_left (fun r hr => by
          rw [(Bool.and_eq_true _ _).mp (List.mem_filter.mp hr).2 |>.2])
      rw [hmapeq]
    · rw [hstate]
      exact List.sorted_mergeSort viewNameLe_trans viewNameLe_total _
  · have hstate2 : (get_user_guilds db u false).2 =
        ((db.user_guilds.filter (fun r => r.user_id == u)).map
          (fun r =>
            r.view (db.bot_guilds.any (fun b => b.guild_id == r.guild_id)))).mergeSort
          viewNameLe := by
      simp only [get_user_guilds, hjoin, Bool.false_eq_true, if_false]
    constructor
    · rw [hstate2]
      exact List.mergeSort_perm _ _
    · rw [hstate2]
      exact List.sorted_mergeSort viewNameLe_trans viewNameLe_total _

/-- C4 (witness): two membership rows for user 5 (one admin guild where the
bot is present, one plain-member guild without the bot). -/
theorem c4_get_user_guilds_manageable_filter_witness :
    ({ Db.empty with
        user_guilds := [⟨5, 1, "A", none, false, 8, 0⟩, ⟨5, 2, "B", none, false, 0, 0⟩],
        bot_guilds := [⟨1, "A", 10, 0⟩] } : Db).BotGuildsWF ∧
    (((get_user_guilds { Db.empty with
        user_guilds := [⟨5, 1, "A", none, false, 8, 0⟩, ⟨5, 2, "B", none, false, 0, 0⟩],
        bot_guilds := [⟨1, "A", 10, 0⟩] } 5 true).2.Perm
       ((({ Db.empty with
          user_guilds := [⟨5, 1, "A", none, false, 8, 0⟩, ⟨5, 2, "B", none, false, 0, 0⟩],
          bot_guilds := [⟨1, "A", 10, 0⟩] } : Db).user_guilds.filter
            (fun r => r.user_id == 5 &&
              (r.owner || (Int.land r.permissions 8 == 8)) &&
              ({ Db.empty with
                user_guilds := [⟨5, 1, "A", none, false, 8, 0⟩,
                  ⟨5, 2, "B", none, false, 0, 0⟩],
                bot_guilds := [⟨1, "A", 10, 0⟩] } : Db).bot_guilds.any
                  (fun b => b.guild_id == r.guild_id))).map
         (fun r => r.view true)) ∧
     (get_user_guilds { Db.empty with
        user_guilds := [⟨5, 1, "A", none, false, 8, 0⟩, ⟨5, 2, "B", none, false, 0, 0⟩],
        bot_guilds := [⟨1, "A", 10, 0⟩] } 5 true).2.Pairwise
        (fun a b => viewNameLe a b = true)) ∧
    ((get_user_guilds { Db.empty with
        user_guilds := [⟨5, 1, "A", none, false, 8, 0⟩, ⟨5, 2, "B", none, false, 0, 0⟩],
        bot_guilds := [⟨1, "A", 10, 0⟩] } 5 false).2.Perm
       ((({ Db.empty with
          user_guilds := [⟨5, 1, "A", none, false, 8, 0⟩, ⟨5, 2, "B", none, false, 0, 0⟩],
          bot_guilds := [⟨1, "A", 10, 0⟩] } : Db).user_guilds.filter
            (fun r => r.user_id == 5)).map
         (fun r => r.view (({ Db.empty with
            user_guilds := [⟨5, 1, "A", none, false, 8, 0⟩,
              ⟨5, 2, "B", none, false, 0, 0⟩],
            bot_guilds := [⟨1, "A", 10, 0⟩] } : Db).bot_guilds.any
              (fun b => b.guild_id == r.guild_id)))) ∧
     (get_user_guilds { Db.empty with
        user_guilds := [⟨5, 1, "A", none, false, 8, 0⟩, ⟨5, 2, "B", none, false, 0, 0⟩],
        bot_guilds := [⟨1, "A", 10, 0⟩] } 5 false).2.Pairwise
        (fun a b => viewNameLe a b = true))) :=
  ⟨by unfold Db.BotGuildsWF; decide,
   c4_get_user_guilds_manageable_filter
     { Db.empty with
        user_guilds := [⟨5, 1, "A", none, false, 8, 0⟩, ⟨5, 2, "B", none, false, 0, 0⟩],
        bot_guilds := [⟨1, "A", 10, 0⟩] }
     5 (by unfold Db.BotGuildsWF; decide)⟩

/-- C5: `sync_user_guilds` fully replaces the user's membership snapshot:
after a successful call the `user_guilds` rows for `u` are exactly the
supplied `guilds_data` (independent of what was stored before), other
users' rows are untouched, and syncing the empty list followed by
`get_user_guilds` yields the empty list in both modes. -/
theorem c5_sync_user_guilds_full_replacement (db : Db) (now u : Int)
    (gs : List GuildData)
    (hok : (sync_user_guilds db now u gs).2 = true) :
    (sync_user_guilds db now u gs).1.user_guilds.filter (fun r => r.user_id == u)
      = gs.map (fun g => g.toUserGuildRow u now) ∧
    (sync_user_guilds db now u gs).1.user_guilds.filter (fun r => !(r.user_id == u))
      = db.user_guilds.filter (fun r => !(r.user_id == u)) ∧
    (gs = [] →
      (get_user_guilds (sync_user_guilds db now u gs).1 u true).2 = [] ∧
      (get_user_guilds (sync_user_guilds db now u gs).1 u false).2 = []) := by
  have hnodup : (gs.map GuildData.id).Nodup := by
    by_contra hn
    rw [sync_user_guilds, if_neg hn] at hok
    exact Bool.false_ne_true hok
  have hstate : (sync_user_guilds db now u gs).1.user_guilds
      = db.user_guilds.filter (fun r => !(r.user_id == u)) ++
        gs.map (fun g => g.toUserGuildRow u now) := by
    rw [sync_user_guilds, if_pos hnodup]
  have hmapfilter : (gs.map (fun g => g.toUserGuildRow u now)).filter
      (fun r => r.user_id == u) = gs.map (fun g => g.toUserGuildRow u now) :=
    List.filter_eq_self.mpr (fun r hr => by
      obtain ⟨g, _, rfl⟩ := List.mem_map.mp hr
      simp [GuildData.toUserGuildRow])
  have hmapfilter2 : (gs.map (fun g => g.toUserGuildRow u now)).filter
      (fun r => !(r.user_id == u)) = [] :=
    List.filter_eq_nil_iff.mpr (fun r hr => by
      obtain ⟨g, _, rfl⟩ := List.mem_map.mp hr
      simp [GuildData.toUserGuildRow])
  refine ⟨?_, ?_, ?_⟩
  · rw [hstate, List.filter_append, filter_self_and_not, hmapfilter,
      List.nil_append]
  · rw [hstate, List.filter_append, filter_not_idem, hmapfilter2,
      List.append_nil]
  · rintro rfl
    have hempty : (sync_user_guilds db now u []).1.user_guilds.filter
        (fun r => r.user_id == u) = [] := by
      rw [hstate, List.filter_append, filter_self_and_not]
      simp
    exact ⟨get_user_guilds_of_no_rows _ _ true hempty,
      get_user_guilds_of_no_rows _ _ false hempty⟩

/-- C5 (witness): full replacement by the empty snapshot at a concrete
store holding rows for two users. -/
theorem c5_sync_user_guilds_full_replacement_witness :
    (sync_user_guilds
        { Db.empty with user_guilds := [⟨5, 1, "A", none, true, 0, 0⟩,
            ⟨7, 2, "B", none, false, 8, 0⟩] } 3 5 []).2 = true ∧
    ((sync_user_guilds
        { Db.empty with user_guilds := [⟨5, 1, "A", none, true, 0, 0⟩,
            ⟨7, 2, "B", none, false, 8, 0⟩] } 3 5 []).1.user_guilds.filter
          (fun r => r.user_id == 5)
        = ([] : List GuildData).map (fun g => g.toUserGuildRow 5 3) ∧
     (sync_user_guilds
        { Db.empty with user_guilds := [⟨5, 1, "A", none, true, 0, 0⟩,
            ⟨7, 2, "B", none, false, 8, 0⟩] } 3 5 []).1.user_guilds.filter
          (fun r => !(r.user_id == 5))
        = ({ Db.empty with user_guilds := [⟨5, 1, "A", none, true, 0, 0⟩,
            ⟨7, 2, "B", none, false, 8, 0⟩] } : Db).user_guilds.filter
            (fun r => !(r.user_id == 5)) ∧
     (([] : List GuildData) = [] →
       (get_user_guilds (sync_user_guilds
          { Db.empty with user_guilds := [⟨5, 1, "A", none, true, 0, 0⟩,
              ⟨7, 2, "B", none, false, 8, 0⟩] } 3 5 []).1 5 true).2 = [] ∧
       (get_user_guilds (sync_user_guilds
          { Db.empty with user_guilds := [⟨5, 1, "A", none, true, 0, 0⟩,
              ⟨7, 2, "B", none, false, 8, 0⟩] } 3 5 []).1 5 false).2 = [])) :=
  ⟨by decide,
   c5_sync_user_guilds_full_replacement
     { Db.empty with user_guilds := [⟨5, 1, "A", none, true, 0, 0⟩,
         ⟨7, 2, "B", none, false, 8, 0⟩] } 3 5 [] (by decide)⟩

/-- C7 (witness): the round-trip at a concrete store, guild and messages. -/
theorem c7_message_upsert_roundtrip_witness :
    Db.empty.MessagesWF ∧
    ((get_test_message (insert_or_update_message Db.empty 0 5 "hello").1 5).2
        = some "hello" ∧
     (get_test_message (insert_or_update_message
        (insert_or_update_message Db.empty 0 5 "hello").1 1 5 "world").1 5).2
        = some "world" ∧
     ((insert_or_update_message (insert_or_update_message Db.empty 0 5 "hello").1
        1 5 "world").1.guild_messages.filter (fun r => r.guild_id == 5)).length
        = 1) :=
  ⟨by simp [Db.MessagesWF, Db.empty],
   c7_message_upsert_roundtrip Db.empty 0 1 5 "hello" "world"
     (by simp [Db.MessagesWF, Db.empty])⟩

end Vermion
